import Mathlib

/-!
Verification of the tile-grid planner, stitcher, retry policy, equirectangular
croppers and URL metadata extractor of the streetview-dl package.

The Python sources are shallowly embedded:
* PIL RGB images become `Img`: a width, a height and a pixel function
  (colors are packed into a single natural number; `Image.new` fills with 0).
* Python floats become exact rationals (`ℚ`); `int()` truncation toward zero
  becomes `pyInt`, and the float `%` operator becomes `pymod`.
* Python integers become `ℤ`/`ℕ`; `//` on non-negative ints is `Nat` division.
-/

/-- A PIL image: dimensions plus a pixel lookup (`Image.new` background is 0). -/
structure Img where
  width : Nat
  height : Nat
  px : Nat → Nat → Nat

/-- `Image.new("RGB", (w, h))`: a `w × h` canvas at the background fill 0. -/
def Img.new (w h : Nat) : Img :=
  ⟨w, h, fun _ _ => 0⟩

/-- `image.crop((l, t, r, b))`: PIL crop with box `(l, t, r, b)`; regions of
the box lying outside the source image are filled with the background value 0.
This models crops with ordered coordinates (`l ≤ r`, `t ≤ b`) — Pillow raises
`ValueError` for an inverted box.  Every embedded call site keeps its box
ordered except the left-wraparound branch of `crop_fov` (utils.py line 183),
whose reachable error condition is tracked separately by `crop_fov_raises`. -/
def Img.crop (im : Img) (l t r b : Int) : Img where
  width := (r - l).toNat
  height := (b - t).toNat
  px := fun x y =>
    if 0 ≤ l + x ∧ l + x < (im.width : Int) ∧ 0 ≤ t + y ∧ t + y < (im.height : Int)
    then im.px (l + x).toNat (t + y).toNat else 0

/-- `base.paste(tile, (ox, oy))`: overwrite the rectangle of `tile`ʼs size at
offset `(ox, oy)`; dimensions of `base` are unchanged. -/
def Img.paste (base tile : Img) (ox oy : Nat) : Img where
  width := base.width
  height := base.height
  px := fun x y =>
    if ox ≤ x ∧ x < ox + tile.width ∧ oy ≤ y ∧ y < oy + tile.height
    then tile.px (x - ox) (y - oy) else base.px x y

/-- Python `int()` on a rational: truncation toward zero. -/
def pyInt (q : ℚ) : Int :=
  if q < 0 then -(⌊-q⌋) else ⌊q⌋

/-- Python float `%`: `a % m = a - m * floor(a / m)` (result has the divisorʼs
sign; for `m > 0` it lies in `[0, m)`). -/
def pymod (a m : ℚ) : ℚ :=
  a - m * ⌊a / m⌋

/-- `StreetViewMetadata` (metadata.py): the geometry fields consumed by the
planner and stitcher.  Widths and heights are pixel counts (non-negative). -/
structure StreetViewMetadata where
  pano_id : String
  image_width : Nat
  image_height : Nat
  tile_width : Nat
  tile_height : Nat

/-- core.py line 108-109: `zoom_map = {"low": 3, "medium": 4, "high": 5}`;
`z = zoom_map.get(quality, 5)`. -/
def zoom_of (quality : String) : Nat :=
  if quality = ("low") then 3
  else if quality = ("medium") then 4
  else if quality = ("high") then 5
  else 5

/-- core.py line 114: `scale_factor = 2 ** (5 - z)`. -/
def scale_factor (quality : String) : Nat :=
  2 ^ (5 - zoom_of quality)

/-- core.py line 115: `scaled_width = metadata.image_width // scale_factor`. -/
def scaled_width (md : StreetViewMetadata) (quality : String) : Nat :=
  md.image_width / scale_factor quality

/-- core.py line 116: `scaled_height = metadata.image_height // scale_factor`. -/
def scaled_height (md : StreetViewMetadata) (quality : String) : Nat :=
  md.image_height / scale_factor quality

/-- core.py line 118: `tiles_x = math.ceil(scaled_width / metadata.tile_width)`
(true division of Python ints, then ceiling). -/
def tiles_x (md : StreetViewMetadata) (quality : String) : Nat :=
  (⌈(scaled_width md quality : ℚ) / (md.tile_width : ℚ)⌉).toNat

/-- core.py line 119: `tiles_y = math.ceil(scaled_height / metadata.tile_height)`. -/
def tiles_y (md : StreetViewMetadata) (quality : String) : Nat :=
  (⌈(scaled_height md quality : ℚ) / (md.tile_height : ℚ)⌉).toNat

/-- cli.py line 307-308: the CLIʼs own copy of the zoom computation inside
`process_single_url` (`zoom_map = {...}`; `z = zoom_map.get(quality, 5)`;
`scale_factor = 2 ** (5 - z)`). -/
def cli_scale_factor (quality : String) : Nat :=
  2 ^ (5 - (if quality = ("low") then 3
            else if quality = ("medium") then 4
            else if quality = ("high") then 5
            else 5))

/-- cli.py line 310: `scaled_width = street_view_metadata.image_width // scale_factor`. -/
def cli_scaled_width (md : StreetViewMetadata) (quality : String) : Nat :=
  md.image_width / cli_scale_factor quality

/-- cli.py line 311: `scaled_height = street_view_metadata.image_height // scale_factor`. -/
def cli_scaled_height (md : StreetViewMetadata) (quality : String) : Nat :=
  md.image_height / cli_scale_factor quality

/-- cli.py line 312: `tiles_x = math.ceil(scaled_width / street_view_metadata.tile_width)`. -/
def cli_tiles_x (md : StreetViewMetadata) (quality : String) : Nat :=
  (⌈(cli_scaled_width md quality : ℚ) / (md.tile_width : ℚ)⌉).toNat

/-- cli.py line 313: `tiles_y = math.ceil(scaled_height / street_view_metadata.tile_height)`. -/
def cli_tiles_y (md : StreetViewMetadata) (quality : String) : Nat :=
  (⌈(cli_scaled_height md quality : ℚ) / (md.tile_height : ℚ)⌉).toNat

/-- cli.py line 314: `total_tiles = tiles_x * tiles_y`. -/
def cli_total_tiles (md : StreetViewMetadata) (quality : String) : Nat :=
  cli_tiles_x md quality * cli_tiles_y md quality

/-- Ceiling division computed through rational division (as the source does via
`math.ceil`) is a tight upper cover: `s ≤ ⌈s/t⌉·t` and `(⌈s/t⌉ - 1)·t < s`. -/
lemma ceil_div_nat_bounds (s t : Nat) (ht : 0 < t) :
    s ≤ (⌈(s : ℚ) / (t : ℚ)⌉).toNat * t ∧
    (((⌈(s : ℚ) / (t : ℚ)⌉).toNat : ℤ) - 1) * (t : ℤ) < (s : ℤ) := by
  have htq : (0 : ℚ) < (t : ℚ) := by exact_mod_cast ht
  have hsq : (0 : ℚ) ≤ (s : ℚ) := by positivity
  have hceil0 : (0 : ℤ) ≤ ⌈(s : ℚ) / (t : ℚ)⌉ :=
    Int.ceil_nonneg (div_nonneg hsq htq.le)
  have htn : ((⌈(s : ℚ) / (t : ℚ)⌉.toNat : ℤ)) = ⌈(s : ℚ) / (t : ℚ)⌉ :=
    Int.toNat_of_nonneg hceil0
  have hdiv : (s : ℚ) / (t : ℚ) * (t : ℚ) = (s : ℚ) := by
    field_simp
  constructor
  · have h1 : (s : ℚ) ≤ (⌈(s : ℚ) / (t : ℚ)⌉ : ℚ) * (t : ℚ) := by
      have h2 := Int.le_ceil ((s : ℚ) / (t : ℚ))
      have h3 := mul_le_mul_of_nonneg_right h2 htq.le
      rwa [hdiv] at h3
    have h4 : (s : ℤ) ≤ ⌈(s : ℚ) / (t : ℚ)⌉ * (t : ℤ) := by exact_mod_cast h1
    have h5 : (s : ℤ) ≤ ((⌈(s : ℚ) / (t : ℚ)⌉).toNat : ℤ) * (t : ℤ) := by
      rw [htn]; exact h4
    exact_mod_cast h5
  · have h1 : (⌈(s : ℚ) / (t : ℚ)⌉ : ℚ) - 1 < (s : ℚ) / (t : ℚ) := by
      have h2 := Int.ceil_lt_add_one ((s : ℚ) / (t : ℚ))
      push_cast at h2 ⊢
      linarith
    have h3 : ((⌈(s : ℚ) / (t : ℚ)⌉ : ℚ) - 1) * (t : ℚ) < (s : ℚ) := by
      have h4 := mul_lt_mul_of_pos_right h1 htq
      rwa [hdiv] at h4
    have h5 : ((⌈(s : ℚ) / (t : ℚ)⌉ : ℤ) - 1) * (t : ℤ) < (s : ℤ) := by
      exact_mod_cast h3
    rw [htn]
    exact h5

/-- Claim C1: grid planning is a tight ceiling — for positive metadata and any
quality string, `scaled_width = image_width / 2 ^ (5 - zoom)` (floor division),
`tiles_x = ⌈scaled_width / tile_width⌉`, and the grid covers the scaled
dimensions (`tiles_x * tile_width ≥ scaled_width`, likewise vertically) while
one fewer tile column/row falls strictly short. -/
theorem grid_planning_tight (md : StreetViewMetadata) (quality : String)
    (hfw : 0 < md.image_width) (hfh : 0 < md.image_height)
    (htw : 0 < md.tile_width) (hth : 0 < md.tile_height) :
    scaled_width md quality = md.image_width / 2 ^ (5 - zoom_of quality) ∧
    scaled_height md quality = md.image_height / 2 ^ (5 - zoom_of quality) ∧
    scaled_width md quality ≤ tiles_x md quality * md.tile_width ∧
    scaled_height md quality ≤ tiles_y md quality * md.tile_height ∧
    ((tiles_x md quality : ℤ) - 1) * (md.tile_width : ℤ) < (scaled_width md quality : ℤ) ∧
    ((tiles_y md quality : ℤ) - 1) * (md.tile_height : ℤ) < (scaled_height md quality : ℤ) := by
  obtain ⟨hx1, hx2⟩ := ceil_div_nat_bounds (scaled_width md quality) md.tile_width htw
  obtain ⟨hy1, hy2⟩ := ceil_div_nat_bounds (scaled_height md quality) md.tile_height hth
  exact ⟨rfl, rfl, hx1, hy1, hx2, hy2⟩

/-- Concrete instantiation of `grid_planning_tight` at a 16384×8192 panorama
with 512×512 tiles at quality "medium". -/
theorem grid_planning_tight_instance :
    0 < 16384 ∧ 0 < 8192 ∧ 0 < 512 ∧
    (scaled_width ⟨("p"), 16384, 8192, 512, 512⟩ ("medium") =
        16384 / 2 ^ (5 - zoom_of ("medium")) ∧
      scaled_height ⟨("p"), 16384, 8192, 512, 512⟩ ("medium") =
        8192 / 2 ^ (5 - zoom_of ("medium")) ∧
      scaled_width ⟨("p"), 16384, 8192, 512, 512⟩ ("medium") ≤
        tiles_x ⟨("p"), 16384, 8192, 512, 512⟩ ("medium") * 512 ∧
      scaled_height ⟨("p"), 16384, 8192, 512, 512⟩ ("medium") ≤
        tiles_y ⟨("p"), 16384, 8192, 512, 512⟩ ("medium") * 512 ∧
      ((tiles_x ⟨("p"), 16384, 8192, 512, 512⟩ ("medium") : ℤ) - 1) * (512 : ℤ) <
        (scaled_width ⟨("p"), 16384, 8192, 512, 512⟩ ("medium") : ℤ) ∧
      ((tiles_y ⟨("p"), 16384, 8192, 512, 512⟩ ("medium") : ℤ) - 1) * (512 : ℤ) <
        (scaled_height ⟨("p"), 16384, 8192, 512, 512⟩ ("medium") : ℤ)) :=
  ⟨by decide, by decide, by decide,
    grid_planning_tight ⟨("p"), 16384, 8192, 512, 512⟩ ("medium")
      (by decide) (by decide) (by decide) (by decide)⟩

/-- Claim C3: no drift between the planner and the CLIʼs progress estimation —
for every metadata record and quality string the CLI (cli.py 306-314) computes
the same tile counts as `download_panorama` (core.py 107-119). -/
theorem planner_cli_no_drift (md : StreetViewMetadata) (quality : String) :
    cli_tiles_x md quality = tiles_x md quality ∧
    cli_tiles_y md quality = tiles_y md quality ∧
    cli_total_tiles md quality = tiles_x md quality * tiles_y md quality :=
  ⟨rfl, rfl, rfl⟩

/-- core.py line 141: `coords = [(x, y) for y in range(tiles_y) for x in range(tiles_x)]`. -/
def tile_coords (tx ty : Nat) : List (Nat × Nat) :=
  (List.range ty).flatMap (fun y => (List.range tx).map (fun x => (x, y)))

/-- core.py lines 152-159: the serialized placement loop.  `tiles c r` is the
outcome of `fetch_coord (c, r)` — `some` a tile image, or `none` when the fetch
failed and the tile is skipped (`if tile is not None: canvas.paste(...)`). -/
def paste_tiles (md : StreetViewMetadata) (tiles : Nat → Nat → Option Img)
    (canvas : Img) (coords : List (Nat × Nat)) : Img :=
  coords.foldl
    (fun c p =>
      match tiles p.1 p.2 with
      | some tile => c.paste tile (p.1 * md.tile_width) (p.2 * md.tile_height)
      | none => c)
    canvas

/-- core.py lines 113-174, `download_panorama` stripped of I/O: plan the grid,
allocate the canvas (`Image.new`, lines 122-130), paste every successfully
fetched tile, and crop to `(0, 0, scaled_width, scaled_height)` (line 170). -/
def download_panorama (md : StreetViewMetadata) (quality : String)
    (tiles : Nat → Nat → Option Img) : Img :=
  let canvas := Img.new (tiles_x md quality * md.tile_width)
    (tiles_y md quality * md.tile_height)
  let stitched := paste_tiles md tiles canvas
    (tile_coords (tiles_x md quality) (tiles_y md quality))
  stitched.crop 0 0 (scaled_width md quality) (scaled_height md quality)

/-- core.py lines 135, 155-159: `completed_tiles` starts at 0 and is increased
by one for every completed future, whether or not its tile arrived (the
`completed_tiles += 1` at line 159 sits outside the `if tile is not None`).
This is the figure printed as "Downloaded {completed_tiles} tiles successfully". -/
def completed_tiles (md : StreetViewMetadata) (quality : String) : Nat :=
  (tile_coords (tiles_x md quality) (tiles_y md quality)).foldl (fun n _ => n + 1) 0

/-- The number of tiles actually pasted onto the canvas: the coordinates whose
fetch produced an image. -/
def placed_tiles (md : StreetViewMetadata) (quality : String)
    (tiles : Nat → Nat → Option Img) : Nat :=
  ((tile_coords (tiles_x md quality) (tiles_y md quality)).filter
    (fun p => (tiles p.1 p.2).isSome)).length

/-- A pixel covered by no pasted tile keeps its canvas value, whatever the
placement order. -/
lemma paste_tiles_px_of_uncovered (md : StreetViewMetadata)
    (tiles : Nat → Nat → Option Img) (coords : List (Nat × Nat)) (canvas : Img)
    (x y : Nat)
    (h : ∀ p ∈ coords, ∀ t, tiles p.1 p.2 = some t →
      ¬ (p.1 * md.tile_width ≤ x ∧ x < p.1 * md.tile_width + t.width ∧
         p.2 * md.tile_height ≤ y ∧ y < p.2 * md.tile_height + t.height)) :
    (paste_tiles md tiles canvas coords).px x y = canvas.px x y := by
  induction coords generalizing canvas with
  | nil => rfl
  | cons p rest ih =>
    have hstep :
        (paste_tiles md tiles canvas (p :: rest)) =
          paste_tiles md tiles
            (match tiles p.1 p.2 with
             | some tile => canvas.paste tile (p.1 * md.tile_width) (p.2 * md.tile_height)
             | none => canvas) rest := rfl
    rw [hstep, ih _ (fun q hq => h q (List.mem_cons_of_mem p hq))]
    cases hc : tiles p.1 p.2 with
    | none => rfl
    | some tile =>
      have hnc := h p (List.mem_cons_self p rest) tile hc
      simp only [Img.paste]
      exact if_neg hnc

/-- Two distinct tile columns cannot cover the same horizontal pixel when every
tile is at most one tile-width wide. -/
lemma tile_block_eq (a c d w tw : Nat) (hd : d < tw) (hw : w ≤ tw)
    (h1 : a * tw ≤ c * tw + d) (h2 : c * tw + d < a * tw + w) : a = c := by
  rcases Nat.lt_trichotomy a c with hlt | heq | hgt
  · have hac : a + 1 ≤ c := hlt
    have : (a + 1) * tw ≤ c * tw := Nat.mul_le_mul_right tw hac
    have : a * tw + tw ≤ c * tw := by rwa [Nat.succ_mul] at this
    omega
  · exact heq
  · have hca : c + 1 ≤ a := hgt
    have : (c + 1) * tw ≤ a * tw := Nat.mul_le_mul_right tw hca
    have : c * tw + tw ≤ a * tw := by rwa [Nat.succ_mul] at this
    omega

/-- Claim C2: stitch crop exactness with missing-tile tolerance — whatever
subset of tiles arrived (each no larger than the advertised tile size), the
stitched result measures exactly `scaled_width × scaled_height`, and every
pixel lying in the block of a missing tile is the canvas background 0. -/
theorem stitch_crop_exact (md : StreetViewMetadata) (quality : String)
    (tiles : Nat → Nat → Option Img)
    (hsz : ∀ a b t, tiles a b = some t →
      t.width ≤ md.tile_width ∧ t.height ≤ md.tile_height) :
    (download_panorama md quality tiles).width = scaled_width md quality ∧
    (download_panorama md quality tiles).height = scaled_height md quality ∧
    ∀ cx cy dx dy, tiles cx cy = none →
      dx < md.tile_width → dy < md.tile_height →
      (download_panorama md quality tiles).px
        (cx * md.tile_width + dx) (cy * md.tile_height + dy) = 0 := by
  refine ⟨?_, ?_, ?_⟩
  · show ((scaled_width md quality : ℤ) - 0).toNat = scaled_width md quality
    simp
  · show ((scaled_height md quality : ℤ) - 0).toNat = scaled_height md quality
    simp
  · intro cx cy dx dy hnone hdx hdy
    have hcanvas :
        (paste_tiles md tiles
          (Img.new (tiles_x md quality * md.tile_width)
            (tiles_y md quality * md.tile_height))
          (tile_coords (tiles_x md quality) (tiles_y md quality))).px
          (cx * md.tile_width + dx) (cy * md.tile_height + dy) = 0 := by
      rw [paste_tiles_px_of_uncovered]
      · rfl
      · intro p hp t ht hcov
        obtain ⟨hc1, hc2, hc3, hc4⟩ := hcov
        obtain ⟨htw, hth⟩ := hsz p.1 p.2 t ht
        have hx : p.1 = cx :=
          tile_block_eq p.1 cx dx t.width md.tile_width hdx htw hc1 hc2
        have hy : p.2 = cy :=
          tile_block_eq p.2 cy dy t.height md.tile_height hdy hth hc3 hc4
        rw [hx, hy] at ht
        rw [hnone] at ht
        exact Option.noConfusion ht
    show (if _ ∧ _ ∧ _ ∧ _ then _ else 0) = 0
    split
    · simpa using hcanvas
    · rfl

/-- Concrete instantiation of `stitch_crop_exact`: a 2×1-pixel panorama with
1×1 tiles and every fetch failed. -/
theorem stitch_crop_exact_instance :
    (download_panorama ⟨("p"), 2, 1, 1, 1⟩ ("high") (fun _ _ => none)).width =
        scaled_width ⟨("p"), 2, 1, 1, 1⟩ ("high") ∧
    (download_panorama ⟨("p"), 2, 1, 1, 1⟩ ("high") (fun _ _ => none)).height =
        scaled_height ⟨("p"), 2, 1, 1, 1⟩ ("high") ∧
    ∀ cx cy dx dy, (fun _ _ => (none : Option Img)) cx cy = none →
      dx < 1 → dy < 1 →
      (download_panorama ⟨("p"), 2, 1, 1, 1⟩ ("high") (fun _ _ => none)).px
        (cx * 1 + dx) (cy * 1 + dy) = 0 :=
  stitch_crop_exact ⟨("p"), 2, 1, 1, 1⟩ ("high") (fun _ _ => none)
    (fun _ _ t ht => Option.noConfusion ht)

/-- utils.py lines 143-199, `crop_fov`: crop an equirectangular panorama to a
field of view centered on `center_yaw`.  Note line 183: the second part of the
left-wraparound branch is `image.crop((0, right, width, height))`, i.e. a box
whose *top* is `right`. -/
def crop_fov (image : Img) (center_yaw : ℚ) (fov_degrees : ℤ) : Img :=
  let width := image.width
  let height := image.height
  let cy := pymod center_yaw 360
  let center_x : ℚ := cy / 360 * width
  let half_fov_pixels : ℚ := (fov_degrees : ℚ) / 360 * width / 2
  let left : ℤ := pyInt (center_x - half_fov_pixels)
  let right : ℤ := pyInt (center_x + half_fov_pixels)
  if (360 : ℤ) ≤ fov_degrees then image
  else if left < 0 ∨ (width : ℤ) < right then
    if left < 0 then
      let left_part := image.crop ((width : ℤ) + left) 0 width height
      let right_part := image.crop 0 right width height
      ((Img.new (pyInt (half_fov_pixels * 2)).toNat height).paste
        left_part 0 0).paste right_part left_part.width 0
    else
      let left_part := image.crop left 0 width height
      let right_part := image.crop 0 0 (right - width) height
      ((Img.new (pyInt (half_fov_pixels * 2)).toNat height).paste
        left_part 0 0).paste right_part left_part.width 0
  else
    image.crop left 0 right height

/-- utils.py lines 202-290, `crop_horizontal_section`: unified horizontal crop.
A clip direction of "left"/"right" forces the effective field of view to 180°,
and "left" additionally turns the view around by 180°. -/
def crop_horizontal_section (image : Img) (center_yaw : ℚ) (fov_degrees : ℤ)
    (clip_direction : String) : Img :=
  let width := image.width
  let height := image.height
  let cy0 := pymod center_yaw 360
  let effective_fov : ℤ :=
    if clip_direction = ("left") ∨ clip_direction = ("right") then 180 else fov_degrees
  let cy := if clip_direction = ("left") then pymod (cy0 + 180) 360 else cy0
  if (360 : ℤ) ≤ effective_fov then image
  else
    let center_x : ℚ := cy / 360 * width
    let half_fov_pixels : ℚ := (effective_fov : ℚ) / 360 * width / 2
    let left : ℚ := center_x - half_fov_pixels
    let right : ℚ := center_x + half_fov_pixels
    if left < 0 ∨ (width : ℚ) < right then
      let target_width := (pyInt (half_fov_pixels * 2)).toNat
      let cropped := Img.new target_width height
      let left_mod : ℤ := pyInt (pymod left width)
      let right_mod : ℤ := pyInt (pymod right width)
      if left < 0 then
        let left_part_width : ℤ := (width : ℤ) - left_mod
        let right_part_width : ℤ := pyInt right
        let cropped2 := cropped.paste (image.crop left_mod 0 width height) 0 0
        if 0 < right_part_width then
          cropped2.paste (image.crop 0 0 right_part_width height)
            left_part_width.toNat 0
        else cropped2
      else
        let left_part_width : ℤ := (width : ℤ) - pyInt left
        let cropped2 := cropped.paste (image.crop (pyInt left) 0 width height) 0 0
        if 0 < right_mod then
          cropped2.paste (image.crop 0 0 right_mod height) left_part_width.toNat 0
        else cropped2
    else
      image.crop (pyInt left) 0 (pyInt right) height

/-- utils.py lines 293-310, `crop_bottom_fraction`: clamp `keep_fraction` to
`[0, 1]`, return the image unchanged when the clamped value reaches 1, and
otherwise keep the top `max(1, int(height * keep_fraction))` rows. -/
def crop_bottom_fraction (image : Img) (keep_fraction : ℚ) : Img :=
  let kf := max 0 (min 1 keep_fraction)
  if 1 ≤ kf then image
  else
    let new_height : ℤ := max 1 (pyInt ((image.height : ℚ) * kf))
    image.crop 0 0 image.width new_height

/-- `int()` agrees with the floor on non-negative arguments. -/
lemma pyInt_of_nonneg (q : ℚ) (h : 0 ≤ q) : pyInt q = ⌊q⌋ := by
  unfold pyInt
  rw [if_neg (not_lt.mpr h)]

/-- The Python float `%` with a positive divisor yields a non-negative value. -/
lemma pymod_nonneg (a m : ℚ) (hm : 0 < m) : 0 ≤ pymod a m := by
  unfold pymod
  have h1 : (⌊a / m⌋ : ℚ) ≤ a / m := Int.floor_le (a / m)
  have h2 : m * (⌊a / m⌋ : ℚ) ≤ m * (a / m) := by
    exact mul_le_mul_of_nonneg_left h1 hm.le
  have h3 : m * (a / m) = a := by field_simp
  linarith

/-- The Python float `%` with a positive divisor stays below the divisor. -/
lemma pymod_lt (a m : ℚ) (hm : 0 < m) : pymod a m < m := by
  unfold pymod
  have h1 : a / m - 1 < (⌊a / m⌋ : ℚ) := by
    have := Int.sub_one_lt_floor (a / m)
    linarith
  have h2 : m * (a / m - 1) < m * (⌊a / m⌋ : ℚ) :=
    mul_lt_mul_of_pos_left h1 hm
  have h3 : m * (a / m) = a := by field_simp
  nlinarith

/-- Reducing the first summand modulo `m` does not change a sum modulo `m`. -/
lemma pymod_add_left (a b m : ℚ) (hm : m ≠ 0) :
    pymod (pymod a m + b) m = pymod (a + b) m := by
  unfold pymod
  have hdiv : (a - m * (⌊a / m⌋ : ℚ) + b) / m = (a + b) / m - (⌊a / m⌋ : ℚ) := by
    field_simp
    ring
  rw [hdiv, Int.floor_sub_int]
  push_cast
  ring

/-- The Python float `%` is idempotent. -/
lemma pymod_pymod (a m : ℚ) (hm : m ≠ 0) : pymod (pymod a m) m = pymod a m := by
  have h := pymod_add_left a 0 m hm
  simpa using h

/-- A small all-background 10×1 test panorama. -/
def demo10 : Img := ⟨10, 1, fun _ _ => 0⟩

/-- A 360×200 test image (the size used by the specʼs bottom-crop example). -/
def demo360 : Img := ⟨360, 200, fun x y => x + y⟩

/-- Counterexample to claim C9 as stated: with `keepFraction = 0` the result
keeps `max(1, ·) = 1` row, not `floor(H * keepFraction) = 0` rows. -/
theorem crop_bottom_not_floor :
    (crop_bottom_fraction demo360 0).height ≠
      (⌊((demo360.height : ℚ)) * max 0 (min 1 (0 : ℚ))⌋).toNat := by
  have h1 : (crop_bottom_fraction demo360 0).height = 1 := by
    norm_num [crop_bottom_fraction, demo360, pyInt, Int.floor_eq_iff, Img.crop]
  have h2 : (⌊((demo360.height : ℚ)) * max 0 (min 1 (0 : ℚ))⌋).toNat = 0 := by
    norm_num [demo360]
  rw [h1, h2]
  decide

/-- Claim C9 (amended): `keep_fraction` is clamped to `[0, 1]`; a clamped value
reaching 1 returns the image unchanged; otherwise the result keeps rows
`[0, max(1, floor(H * clamped)))` — not `[0, floor(H * clamped))` — at full
width, pixels unchanged. -/
theorem crop_bottom_amended (image : Img) (keep_fraction : ℚ) :
    (1 ≤ max 0 (min 1 keep_fraction) →
      crop_bottom_fraction image keep_fraction = image) ∧
    (max 0 (min 1 keep_fraction) < 1 →
      (crop_bottom_fraction image keep_fraction).width = image.width ∧
      ((crop_bottom_fraction image keep_fraction).height : ℤ) =
        max 1 ⌊(image.height : ℚ) * max 0 (min 1 keep_fraction)⌋ ∧
      ∀ x y, x < image.width → y < image.height →
        (crop_bottom_fraction image keep_fraction).px x y = image.px x y) := by
  constructor
  · intro hge
    unfold crop_bottom_fraction
    rw [if_pos hge]
  · intro hlt
    have hkf0 : (0 : ℚ) ≤ max 0 (min 1 keep_fraction) := le_max_left 0 _
    have hm0 : (0 : ℚ) ≤ (image.height : ℚ) * max 0 (min 1 keep_fraction) :=
      mul_nonneg (by positivity) hkf0
    have hpy : pyInt ((image.height : ℚ) * max 0 (min 1 keep_fraction)) =
        ⌊(image.height : ℚ) * max 0 (min 1 keep_fraction)⌋ :=
      pyInt_of_nonneg _ hm0
    have hne : crop_bottom_fraction image keep_fraction =
        image.crop 0 0 image.width
          (max 1 (pyInt ((image.height : ℚ) * max 0 (min 1 keep_fraction)))) := by
      unfold crop_bottom_fraction
      rw [if_neg (not_le.mpr hlt)]
    have hnh1 : (1 : ℤ) ≤
        max 1 (pyInt ((image.height : ℚ) * max 0 (min 1 keep_fraction))) :=
      le_max_left 1 _
    refine ⟨?_, ?_, ?_⟩
    · rw [hne]
      show ((image.width : ℤ) - 0).toNat = image.width
      simp
    · rw [hne]
      show (((max 1 (pyInt ((image.height : ℚ) * max 0 (min 1 keep_fraction))) : ℤ)
          - 0).toNat : ℤ) = _
      rw [sub_zero, Int.toNat_of_nonneg (by linarith), hpy]
    · intro x y hx hy
      rw [hne]
      show (if _ ∧ _ ∧ _ ∧ _ then image.px ((0 : ℤ) + x).toNat ((0 : ℤ) + y).toNat
        else 0) = image.px x y
      rw [if_pos]
      · norm_num
      · refine ⟨by positivity, ?_, by positivity, ?_⟩
        · simpa using hx
        · simpa using hy

/-- Concrete instantiation of `crop_bottom_amended`: the specʼs 360×200 example
with `keepFraction = 0.75`, and the no-op case `keepFraction = 1`. -/
theorem crop_bottom_amended_instance :
    (crop_bottom_fraction demo360 1 = demo360) ∧
    ((crop_bottom_fraction demo360 (3 / 4)).width = demo360.width ∧
      ((crop_bottom_fraction demo360 (3 / 4)).height : ℤ) =
        max 1 ⌊(demo360.height : ℚ) * max 0 (min 1 (3 / 4 : ℚ))⌋ ∧
      ∀ x y, x < demo360.width → y < demo360.height →
        (crop_bottom_fraction demo360 (3 / 4)).px x y = demo360.px x y) :=
  ⟨(crop_bottom_amended demo360 1).1 (by norm_num),
   (crop_bottom_amended demo360 (3 / 4)).2 (by norm_num)⟩

/-- A 360×180 equirectangular test panorama with distinct pixel values. -/
def pano360 : Img := ⟨360, 180, fun x y => x + y⟩

/-- The condition under which the real `crop_fov` raises instead of returning
an image: Pillow's `crop` rejects an inverted box (`ValueError` when `lower`
is less than `upper`), and the box `(0, right, width, height)` built at
utils.py line 183 — whose *top* coordinate is `right` — is inverted exactly
when `right > height`.  That line runs when `fov < 360` and `left < 0`; every
other crop box in `crop_fov` (and in the other embedded croppers, on images of
positive width) has ordered coordinates. -/
def crop_fov_raises (image : Img) (center_yaw : ℚ) (fov_degrees : ℤ) : Prop :=
  fov_degrees < 360 ∧
  pyInt (pymod center_yaw 360 / 360 * (image.width : ℚ) -
    (fov_degrees : ℚ) / 360 * (image.width : ℚ) / 2) < 0 ∧
  (image.height : ℤ) < pyInt (pymod center_yaw 360 / 360 * (image.width : ℚ) +
    (fov_degrees : ℚ) / 360 * (image.width : ℚ) / 2)

/-- Counterexample to claim C4 as stated: at a 10-pixel-wide image, yaw 180 and
fov 63 the cropped width is `int(5.875) - int(4.125) = 1`, while
`round(63/360 * 10) = round(1.75) = 2`. -/
theorem crop_fov_not_round :
    ((crop_fov demo10 180 63).width : ℤ) ≠ round ((63 : ℚ) / 360 * 10) := by
  have h1 : (crop_fov demo10 180 63).width = 1 := by
    norm_num [crop_fov, demo10, pyInt, pymod, Int.floor_eq_iff, Img.crop]
  have h2 : round ((63 : ℚ) / 360 * 10) = 2 := by
    norm_num [round_eq, Int.floor_eq_iff]
  rw [h1, h2]
  decide

/-- Claim C4 (amended): `crop_fov` returns the image unchanged for
`fov ≥ 360`; for `0 < fov < 360`, outside the region where the real code
raises a `ValueError` (`crop_fov_raises`: the left-wraparound branch with
`right > height`, from the inverted crop box at utils.py line 183), the
result height always equals `H` and the result width is within 2 pixels of
`fov/360 * W` (rather than exactly `round(fov/360 * W)`: truncation of both
boundaries makes the exact width depend on the yaw). -/
theorem crop_fov_size_amended (image : Img) (center_yaw : ℚ) (fov_degrees : ℤ) :
    ((360 : ℤ) ≤ fov_degrees → crop_fov image center_yaw fov_degrees = image) ∧
    (0 < fov_degrees → fov_degrees < 360 →
      ¬ crop_fov_raises image center_yaw fov_degrees →
      (crop_fov image center_yaw fov_degrees).height = image.height ∧
      |((crop_fov image center_yaw fov_degrees).width : ℚ) -
        (fov_degrees : ℚ) / 360 * (image.width : ℚ)| < 2) := by
  constructor
  · intro hge
    unfold crop_fov
    rw [if_pos hge]
  · intro hpos hlt hnoraise
    have hcy0 : (0 : ℚ) ≤ pymod center_yaw 360 := pymod_nonneg _ _ (by norm_num)
    have hfq : (0 : ℚ) < (fov_degrees : ℚ) := by exact_mod_cast hpos
    have hW0 : (0 : ℚ) ≤ (image.width : ℚ) := by positivity
    set W : ℚ := (image.width : ℚ) with hWdef
    set cx : ℚ := pymod center_yaw 360 / 360 * W with hcxdef
    set hf : ℚ := (fov_degrees : ℚ) / 360 * W / 2 with hfdef
    have hcx0 : (0 : ℚ) ≤ cx := by
      rw [hcxdef]
      positivity
    have hhf0 : (0 : ℚ) ≤ hf := by
      rw [hfdef]
      positivity
    have ht : hf * 2 = (fov_degrees : ℚ) / 360 * W := by
      rw [hfdef]; ring
    have hright : pyInt (cx + hf) = ⌊cx + hf⌋ := pyInt_of_nonneg _ (by linarith)
    have hmain : crop_fov image center_yaw fov_degrees =
        (if pyInt (cx - hf) < 0 ∨ (image.width : ℤ) < pyInt (cx + hf) then
          if pyInt (cx - hf) < 0 then
            ((Img.new (pyInt (hf * 2)).toNat image.height).paste
              (image.crop ((image.width : ℤ) + pyInt (cx - hf)) 0 image.width image.height) 0 0).paste
              (image.crop 0 (pyInt (cx + hf)) image.width image.height)
              (image.crop ((image.width : ℤ) + pyInt (cx - hf)) 0 image.width image.height).width 0
          else
            ((Img.new (pyInt (hf * 2)).toNat image.height).paste
              (image.crop (pyInt (cx - hf)) 0 image.width image.height) 0 0).paste
              (image.crop 0 0 (pyInt (cx + hf) - image.width) image.height)
              (image.crop (pyInt (cx - hf)) 0 image.width image.height).width 0
        else image.crop (pyInt (cx - hf)) 0 (pyInt (cx + hf)) image.height) := by
      unfold crop_fov
      rw [if_neg (not_le.mpr hlt)]
    rw [hmain]
    by_cases hwrap : pyInt (cx - hf) < 0 ∨ (image.width : ℤ) < pyInt (cx + hf)
    · rw [if_pos hwrap]
      have hfloor : pyInt (hf * 2) = ⌊hf * 2⌋ := pyInt_of_nonneg _ (by linarith)
      have hfl0 : (0 : ℤ) ≤ ⌊hf * 2⌋ := Int.floor_nonneg.mpr (by linarith)
      have hwidth : ∀ b : Img,
          (((Img.new (pyInt (hf * 2)).toNat image.height).paste b 0 0).paste
            (image.crop 0 (pyInt (cx + hf)) image.width image.height) b.width 0).width
            = (pyInt (hf * 2)).toNat ∧
          (((Img.new (pyInt (hf * 2)).toNat image.height).paste b 0 0).paste
            (image.crop 0 0 (pyInt (cx + hf) - image.width) image.height) b.width 0).width
            = (pyInt (hf * 2)).toNat := fun b => ⟨rfl, rfl⟩
      have hwq : ((((pyInt (hf * 2)).toNat : ℤ)) : ℚ) = (⌊hf * 2⌋ : ℚ) := by
        rw [hfloor, Int.toNat_of_nonneg hfl0]
      have habs : |(((pyInt (hf * 2)).toNat : ℤ) : ℚ) -
          (fov_degrees : ℚ) / 360 * W| < 2 := by
        rw [hwq, ← ht]
        have hle := Int.floor_le (hf * 2)
        have hgt := Int.sub_one_lt_floor (hf * 2)
        rw [abs_lt]
        constructor <;> linarith
      by_cases hl : pyInt (cx - hf) < 0
      · rw [if_pos hl]
        refine ⟨rfl, ?_⟩
        have := habs
        push_cast at this ⊢
        exact this
      · rw [if_neg hl]
        refine ⟨rfl, ?_⟩
        have := habs
        push_cast at this ⊢
        exact this
    · rw [if_neg hwrap]
      push_neg at hwrap
      obtain ⟨hl0, hrW⟩ := hwrap
      have hl0' : (0 : ℤ) ≤ pyInt (cx - hf) := not_lt.mp (by exact not_lt.mpr hl0)
      constructor
      · show ((image.height : ℤ) - 0).toNat = image.height
        simp
      · have hsub0 : (0 : ℤ) ≤ pyInt (cx + hf) - pyInt (cx - hf) := by
          have hmono : pyInt (cx - hf) ≤ pyInt (cx + hf) := by
            rcases lt_or_le (cx - hf) 0 with hneg | hnn
            · have ha : pyInt (cx - hf) = -(⌊-(cx - hf)⌋) := by
                unfold pyInt
                rw [if_pos hneg]
              have hb : (0 : ℤ) ≤ ⌊-(cx - hf)⌋ := Int.floor_nonneg.mpr (by linarith)
              have hc : (0 : ℤ) ≤ pyInt (cx + hf) := by
                rw [hright]
                exact Int.floor_nonneg.mpr (by linarith)
              rw [ha]
              linarith
            · rw [pyInt_of_nonneg _ hnn, hright]
              exact Int.floor_le_floor (by linarith)
          linarith
        show |(((pyInt (cx + hf) - pyInt (cx - hf)).toNat : ℤ) : ℚ) - _| < 2
        rw [Int.toNat_of_nonneg hsub0]
        rcases lt_or_le (cx - hf) 0 with hneg | hnn
        · have hleft : pyInt (cx - hf) = 0 := by
            have h1 : pyInt (cx - hf) = -(⌊-(cx - hf)⌋) := by
              unfold pyInt
              rw [if_pos hneg]
            have h2 : (0 : ℤ) ≤ ⌊-(cx - hf)⌋ := Int.floor_nonneg.mpr (by linarith)
            have h3 : ⌊-(cx - hf)⌋ ≤ 0 := by
              have := hl0'
              rw [h1] at this
              linarith
            rw [h1]
            omega
          have hfl01 : ⌊-(cx - hf)⌋ = 0 := by
            have h1 : pyInt (cx - hf) = -(⌊-(cx - hf)⌋) := by
              unfold pyInt
              rw [if_pos hneg]
            rw [h1] at hleft
            omega
          have hlt1 : -(cx - hf) < 1 := by
            have := Int.lt_floor_add_one (-(cx - hf))
            rw [hfl01] at this
            push_cast at this
            linarith
          rw [hleft, hright]
          have hle := Int.floor_le (cx + hf)
          have hgt := Int.sub_one_lt_floor (cx + hf)
          rw [abs_lt]
          push_cast
          constructor <;> linarith
        · rw [pyInt_of_nonneg _ hnn, hright]
          have hle1 := Int.floor_le (cx + hf)
          have hgt1 := Int.sub_one_lt_floor (cx + hf)
          have hle2 := Int.floor_le (cx - hf)
          have hgt2 := Int.sub_one_lt_floor (cx - hf)
          rw [abs_lt]
          push_cast
          constructor <;> linarith

/-- Concrete instantiation of `crop_fov_size_amended`: the no-op case at
`fov = 360` and the measured case at yaw 180, `fov = 63` on a 10×1 image —
and, to show the excluded error region is real, the raise condition holds at a
360×180 panorama with yaw 90 and fov 220 (window -20..200, box top 200 below
bottom 180). -/
theorem crop_fov_size_instance :
    (crop_fov demo10 0 360 = demo10) ∧
    crop_fov_raises pano360 90 220 ∧
    ((crop_fov demo10 180 63).height = demo10.height ∧
      |((crop_fov demo10 180 63).width : ℚ) - (63 : ℚ) / 360 * (demo10.width : ℚ)| < 2) :=
  ⟨(crop_fov_size_amended demo10 0 360).1 (by norm_num),
   by norm_num [crop_fov_raises, pano360, pyInt, pymod, Int.floor_eq_iff],
   (crop_fov_size_amended demo10 180 63).2 (by norm_num) (by norm_num)
     (by norm_num [crop_fov_raises, demo10, pyInt, pymod, Int.floor_eq_iff])⟩

/-- The library cropper does implement the documented override: with clip
"right" the requested fov is ignored and the result equals a 180°-FOV crop
through the same operation (asserted by test_crop_horizontal_section_fov_with_clip). -/
lemma crop_horizontal_section_overrides (image : Img) (center_yaw : ℚ)
    (fov_degrees : ℤ) :
    crop_horizontal_section image center_yaw fov_degrees ("right") =
      crop_horizontal_section image center_yaw 180 ("none") ∧
    (crop_horizontal_section image center_yaw fov_degrees ("right")).width =
      (crop_horizontal_section image center_yaw 180 ("none")).width :=
  ⟨rfl, rfl⟩

/-- cli.py lines 330-332: `if fov and fov < 360 and ... url_yaw is not None:
image = crop_fov(image, street_view_metadata.url_yaw, fov)` (the case with a
yaw present; `fov and` is Python truthiness, i.e. `fov ≠ 0`). -/
def cli_apply_fov (image : Img) (url_yaw : ℚ) (fov : ℤ) : Img :=
  if fov ≠ 0 ∧ fov < 360 then crop_fov image url_yaw fov else image

/-- cli.py lines 337-363: the CLIʼs own inline clip, applied to whatever
`image` currently holds — `half_width = width // 4` of the *current* image,
crop `[center_x - half_width, center_x + half_width)` for "right" (opposite
window for "left"), with a modulo-based wraparound combine.  `%` on Python
ints with the positive `width` matches `Int.emod`. -/
def cli_apply_clip (image1 : Img) (url_yaw : ℚ) (clip : String) : Img :=
  if clip = ("left") ∨ clip = ("right") then
    let width := image1.width
    let height := image1.height
    let center_x : ℚ := pymod url_yaw 360 / 360 * (width : ℚ)
    let half_width : Nat := width / 4
    let left : ℤ := if clip = ("right") then pyInt (center_x - (half_width : ℚ))
      else pyInt (center_x + (half_width : ℚ))
    let right : ℤ := if clip = ("right") then pyInt (center_x + (half_width : ℚ))
      else pyInt (center_x + 3 * (half_width : ℚ))
    if left < 0 ∨ (width : ℤ) < right then
      let left_mod : ℤ := left % (width : ℤ)
      let right_mod : ℤ := right % (width : ℤ)
      if left_mod < right_mod then
        image1.crop left_mod 0 right_mod height
      else
        let left_part := image1.crop left_mod 0 width height
        ((Img.new (half_width * 2) height).paste left_part 0 0).paste
          (image1.crop 0 0 right_mod height) left_part.width 0
    else
      image1.crop left 0 right height
  else image1

/-- cli.py 330-363 in sequence: the fov crop runs first, then the clip is
taken of the already-cropped image. -/
def cli_fov_clip (image : Img) (url_yaw : ℚ) (fov : ℤ) (clip : String) : Img :=
  cli_apply_clip (cli_apply_fov image url_yaw fov) url_yaw clip

set_option maxRecDepth 8000 in
/-- Claim C6: requesting `fov = 220` together with `clip = "right"` on a
360×180 panorama at yaw 180 through the CLI pipeline (cli.py 330-363) yields
width 110 — half of the 220°-cropped width — not the 180°-FOV width 180 that
the claim (and the spec, the test suite via
`crop_horizontal_section`, and generate_examples.pyʼs "demonstrates clipping
override" example) prescribe: the CLI crops to the fov first and then halves
the already-cropped image, instead of forcing an effective 180° view of the
original. -/
theorem cli_clip_after_fov_width :
    (cli_fov_clip pano360 180 220 ("right")).width = 110 ∧
    (crop_horizontal_section pano360 180 220 ("right")).width = 180 ∧
    (crop_fov pano360 180 180).width = 180 ∧
    (cli_fov_clip pano360 180 220 ("right")).width ≠
      (crop_fov pano360 180 180).width := by
  have hcli : (cli_fov_clip pano360 180 220 ("right")).width = 110 := by
    have hfov : cli_apply_fov pano360 180 220 = Img.crop pano360 70 0 290 180 := by
      norm_num [cli_apply_fov, crop_fov, pano360, pyInt, pymod, Int.floor_eq_iff]
    have hw : (Img.crop pano360 70 0 290 180).width = 220 := by decide
    have hh : (Img.crop pano360 70 0 290 180).height = 180 := by decide
    have e1 : Int.toNat 220 = 220 := rfl
    have e2 : Int.toNat 180 = 180 := rfl
    have e3 : Int.toNat 110 = 110 := rfl
    show (cli_apply_clip (cli_apply_fov pano360 180 220) 180 ("right")).width = 110
    rw [hfov]
    norm_num [cli_apply_clip, hw, hh, e1, e2, e3, pyInt, pymod, Int.floor_eq_iff,
      Img.crop]
  have hchs : (crop_horizontal_section pano360 180 220 ("right")).width = 180 := by
    have hrl : ((("right") : String) = ("left")) ↔ False := iff_false_intro (by decide)
    norm_num [crop_horizontal_section, pano360, hrl, pyInt, pymod, Int.floor_eq_iff,
      Img.crop, Img.paste, Img.new]
    decide
  have hfov180 : (crop_fov pano360 180 180).width = 180 := by
    norm_num [crop_fov, pano360, pyInt, pymod, Int.floor_eq_iff, Img.crop]
    decide
  refine ⟨hcli, hchs, hfov180, ?_⟩
  rw [hcli, hfov180]
  decide

/-- Counterexample to claim C5 as stated: on a 10×1 image with yaw 266.4°, the
rear window is centered at 86.4° and runs from pixel -0.1 to 4.9.
`crop_horizontal_section` tests the float boundary (-0.1 < 0) and wraps,
producing width `int(5.0) = 5`; `crop_fov` tests the truncated boundary
(`int(-0.1) = 0`, not `< 0`) and does not wrap, producing width
`int(4.9) - int(-0.1) = 4`.  The outputs are not pixel-identical. -/
theorem clip_left_fov_differ :
    crop_horizontal_section demo10 (1332 / 5) 180 ("left") ≠
      crop_fov demo10 (pymod (1332 / 5 + 180) 360) 180 := by
  intro heq
  have hw := congrArg Img.width heq
  have h1 : (crop_horizontal_section demo10 (1332 / 5) 180 ("left")).width = 5 := by
    norm_num [crop_horizontal_section, demo10, pyInt, pymod, Int.floor_eq_iff,
      Img.crop, Img.paste, Img.new]
    decide
  have h2 : (crop_fov demo10 (pymod (1332 / 5 + 180) 360) 180).width = 4 := by
    norm_num [crop_fov, demo10, pyInt, pymod, Int.floor_eq_iff, Img.crop]
    decide
  rw [h1, h2] at hw
  exact absurd hw (by decide)

/-- An 8×2 test image with distinct pixel values. -/
def demo8 : Img := ⟨8, 2, fun x y => 10 * x + y⟩

/-- Claim C5 (amended): the directional clip "left" is pixel-identical to the
field-of-view crop at center `(yaw+180) mod 360` with fov 180 whenever the
180° window does not wrap, i.e. whenever the window `[centerX - W/4,
centerX + W/4]` lies within `[0, W]`; in wrapping cases the two functions can
disagree (different boundary tests and segment arithmetic). -/
theorem clip_left_eq_fov_nonwrap (image : Img) (center_yaw : ℚ) (fov_degrees : ℤ)
    (h1 : 0 ≤ pymod (center_yaw + 180) 360 / 360 * (image.width : ℚ) -
      180 / 360 * (image.width : ℚ) / 2)
    (h2 : pymod (center_yaw + 180) 360 / 360 * (image.width : ℚ) +
      180 / 360 * (image.width : ℚ) / 2 ≤ (image.width : ℚ)) :
    crop_horizontal_section image center_yaw fov_degrees ("left") =
      crop_fov image (pymod (center_yaw + 180) 360) 180 := by
  have h360 : (360 : ℚ) ≠ 0 := by norm_num
  have hcy : pymod (pymod center_yaw 360 + 180) 360 = pymod (center_yaw + 180) 360 :=
    pymod_add_left center_yaw 180 360 h360
  have hid : pymod (pymod (center_yaw + 180) 360) 360 = pymod (center_yaw + 180) 360 :=
    pymod_pymod (center_yaw + 180) 360 h360
  have hhf0 : (0 : ℚ) ≤ 180 / 360 * (image.width : ℚ) / 2 := by positivity
  have hfloorL : pyInt (pymod (center_yaw + 180) 360 / 360 * (image.width : ℚ) -
      180 / 360 * (image.width : ℚ) / 2) =
      ⌊pymod (center_yaw + 180) 360 / 360 * (image.width : ℚ) -
        180 / 360 * (image.width : ℚ) / 2⌋ :=
    pyInt_of_nonneg _ h1
  have hfloorR : pyInt (pymod (center_yaw + 180) 360 / 360 * (image.width : ℚ) +
      180 / 360 * (image.width : ℚ) / 2) =
      ⌊pymod (center_yaw + 180) 360 / 360 * (image.width : ℚ) +
        180 / 360 * (image.width : ℚ) / 2⌋ :=
    pyInt_of_nonneg _ (by linarith)
  simp only [crop_horizontal_section, crop_fov, reduceIte, true_or]
  rw [hcy, hid]
  rw [show ((180 : ℤ) : ℚ) = (180 : ℚ) from by norm_num]
  rw [if_neg (show ¬ (pymod (center_yaw + 180) 360 / 360 * (image.width : ℚ) -
      180 / 360 * (image.width : ℚ) / 2 < 0 ∨
      ((image.width : ℚ)) < pymod (center_yaw + 180) 360 / 360 * (image.width : ℚ) +
      180 / 360 * (image.width : ℚ) / 2) from by
    push_neg
    exact ⟨h1, h2⟩)]
  rw [if_neg (show ¬ (pyInt (pymod (center_yaw + 180) 360 / 360 * (image.width : ℚ) -
      180 / 360 * (image.width : ℚ) / 2) < 0 ∨
      (image.width : ℤ) < pyInt (pymod (center_yaw + 180) 360 / 360 * (image.width : ℚ) +
      180 / 360 * (image.width : ℚ) / 2)) from by
    push_neg
    constructor
    · rw [hfloorL]
      exact Int.floor_nonneg.mpr h1
    · rw [hfloorR]
      have h3 := Int.floor_le_floor h2
      rwa [Int.floor_natCast] at h3)]

/-- Concrete instantiation of `clip_left_eq_fov_nonwrap`: an 8×2 image with
yaw 0 — the rear window spans pixels 2..6, no wraparound. -/
theorem clip_left_eq_fov_instance :
    crop_horizontal_section demo8 0 220 ("left") =
      crop_fov demo8 (pymod (0 + 180) 360) 180 :=
  clip_left_eq_fov_nonwrap demo8 0 220
    (by norm_num [demo8, pymod, Int.floor_eq_iff])
    (by norm_num [demo8, pymod, Int.floor_eq_iff])

/-- core.py line 40: `status_forcelist=[429, 500, 502, 503, 504]` — the HTTP
statuses the session treats as transient. -/
def status_forcelist : List Nat := [429, 500, 502, 503, 504]

/-- Modelled from the spec: the per-request retry loop that core.py delegates
to the HTTP adapter built in `_build_session` (core.py lines 30-47) with
`total=read=connect=status=retries` and `raise_on_status=False` — "transient
failures ... are retried up to a configured attempt count"; statuses outside
`status_forcelist` are never retried.  `server n` is the status returned for
the n-th attempt; the result is (number of attempts made, final status). -/
def retry_fetch (server : Nat → Nat) : Nat → Nat → Nat × Nat
  | 0, attempt => (1, server attempt)
  | n + 1, attempt =>
    if server attempt ∈ status_forcelist then
      let r := retry_fetch server n (attempt + 1)
      (r.1 + 1, r.2)
    else (1, server attempt)

/-- A tile fetch as configured by `StreetViewDownloader`: the adapter performs
`retries` retries beyond the initial attempt. -/
def fetch_tile_status (retries : Nat) (server : Nat → Nat) : Nat × Nat :=
  retry_fetch server retries 0

/-- core.py lines 90-97 and 144-150: `fetch_tile` raises via
`raise_for_status()` on any final status ≥ 400, and `fetch_coord` turns that
exception into `None` — the tile is treated as missing and never pasted. -/
def fetch_coord_result (retries : Nat) (server : Nat → Nat) (tile : Img) :
    Option Img :=
  if (fetch_tile_status retries server).2 < 400 then some tile else none

/-- Against a server that always answers 503 the loop makes exactly one more
attempt than it has retries, and ends on 503. -/
lemma retry_fetch_const_503 (n a : Nat) :
    retry_fetch (fun _ => 503) n a = (n + 1, 503) := by
  induction n generalizing a with
  | zero => rfl
  | succ k ih =>
    show (if 503 ∈ status_forcelist then _ else _) = _
    rw [if_pos (by decide)]
    rw [ih (a + 1)]

/-- Claim C7: retry ceiling and degrade-to-missing — a tile endpoint that
always returns HTTP 503 is attempted exactly `retries + 1` times, after which
the tile is reported missing (`None`, so never pasted); a 4xx status other
than 429 is answered in a single attempt (no retry). -/
theorem retry_ceiling (retries : Nat) (tile : Img) :
    (fetch_tile_status retries (fun _ => 503)).1 = retries + 1 ∧
    fetch_coord_result retries (fun _ => 503) tile = none ∧
    (∀ s, 400 ≤ s → s < 500 → s ≠ 429 →
      (fetch_tile_status retries (fun _ => s)).1 = 1) := by
  refine ⟨?_, ?_, ?_⟩
  · rw [fetch_tile_status, retry_fetch_const_503]
  · rw [fetch_coord_result, fetch_tile_status, retry_fetch_const_503]
    norm_num
  · intro s h400 h500 h429
    have hnot : s ∉ status_forcelist := by
      intro hmem
      simp only [status_forcelist, List.mem_cons, List.not_mem_nil, or_false] at hmem
      omega
    cases retries with
    | zero => rfl
    | succ k =>
      have hstep : fetch_tile_status (k + 1) (fun _ => s) =
          if s ∈ status_forcelist then
            ((retry_fetch (fun _ => s) k 1).1 + 1, (retry_fetch (fun _ => s) k 1).2)
          else (1, s) := rfl
      rw [hstep, if_neg hnot]

/-- Concrete instantiation of `retry_ceiling`: 3 configured retries give 4
attempts on a permanent 503 and a missing tile; a 404 is not retried. -/
theorem retry_ceiling_instance :
    (fetch_tile_status 3 (fun _ => 503)).1 = 3 + 1 ∧
    fetch_coord_result 3 (fun _ => 503) (Img.new 1 1) = none ∧
    (fetch_tile_status 3 (fun _ => 404)).1 = 1 :=
  ⟨(retry_ceiling 3 (Img.new 1 1)).1, (retry_ceiling 3 (Img.new 1 1)).2.1,
   (retry_ceiling 3 (Img.new 1 1)).2.2 404 (by decide) (by decide) (by decide)⟩

/-- Claim C8: on a 2×1-pixel panorama with 1×1 tiles where the tile at (1, 0)
fails permanently, only one tile is pasted but `completed_tiles` — the number
the code prints as "Downloaded {completed_tiles} tiles successfully" — still
reports 2: the counter at core.py line 159 is incremented outside the
`if tile is not None` guard, so it counts every finished future, successful or
not, and always equals the total tile count. -/
theorem completed_tiles_miscount :
    completed_tiles ⟨("p"), 2, 1, 1, 1⟩ ("high") = 2 ∧
    placed_tiles ⟨("p"), 2, 1, 1, 1⟩ ("high")
      (fun x _ => if x = 0 then some (Img.new 1 1) else none) = 1 ∧
    completed_tiles ⟨("p"), 2, 1, 1, 1⟩ ("high") ≠
      placed_tiles ⟨("p"), 2, 1, 1, 1⟩ ("high")
        (fun x _ => if x = 0 then some (Img.new 1 1) else none) := by
  have hx : tiles_x ⟨("p"), 2, 1, 1, 1⟩ ("high") = 2 := by
    show (⌈(scaled_width ⟨("p"), 2, 1, 1, 1⟩ ("high") : ℚ) / ((1 : Nat) : ℚ)⌉).toNat = 2
    norm_num [scaled_width, scale_factor, zoom_of]
    decide
  have hy : tiles_y ⟨("p"), 2, 1, 1, 1⟩ ("high") = 1 := by
    show (⌈(scaled_height ⟨("p"), 2, 1, 1, 1⟩ ("high") : ℚ) / ((1 : Nat) : ℚ)⌉).toNat = 1
    norm_num [scaled_height, scale_factor, zoom_of]
    decide
  refine ⟨?_, ?_, ?_⟩
  · rw [completed_tiles, hx, hy]
    rfl
  · rw [placed_tiles, hx, hy]
    rfl
  · rw [completed_tiles, placed_tiles, hx, hy]
    decide

/-- Boolean test that `pat` is an initial segment of `s`. -/
def lstarts : List Char → List Char → Bool
  | [], _ => true
  | _ :: _, [] => false
  | p :: ps, c :: cs => (p == c) && lstarts ps cs

/-- The maximal run of characters matched by `[^!]+` (possibly empty here;
emptiness is rejected by the callers). -/
def take_non_bang (cs : List Char) : List Char :=
  cs.takeWhile (fun c => c != '!')

/-- The literal head of the thumbnail pattern
`https:%2F%2Fstreetviewpixels.*?%3F([^!]+)` (metadata.py line 68). -/
def thumb_lit : List Char := ("https:%2F%2Fstreetviewpixels").data

/-- The lazy tail `.*?%3F([^!]+)` of the thumbnail pattern, started right
after the literal: the shortest newline-free gap followed by "%3F" and a
non-empty capture of non-`!` characters. -/
def find_qmark : List Char → Option (List Char)
  | [] => none
  | c :: cs =>
    if lstarts (("%3F").data) (c :: cs) then
      let cap := take_non_bang (cs.drop 2)
      if cap.isEmpty then if c = '\n' then none else find_qmark cs
      else some cap
    else if c = '\n' then none
    else find_qmark cs

/-- `re.search` of the thumbnail pattern: try every start position from the
left; a position must carry the literal head and a completed tail. -/
def thumb_search : List Char → Option (List Char)
  | [] => none
  | c :: cs =>
    if lstarts thumb_lit (c :: cs) then
      match find_qmark ((c :: cs).drop thumb_lit.length) with
      | some cap => some cap
      | none => thumb_search cs
    else thumb_search cs

/-- metadata.py line 72: `qs_encoded.replace("%26", "&").replace("%3D", "=")`.
A single left-to-right pass is equivalent to the two sequential `replace`
calls: the patterns cannot overlap each other and replacing "%26" by "&"
neither creates nor destroys an occurrence of "%3D". -/
def decode_qs : List Char → List Char
  | '%' :: '2' :: '6' :: cs => '&' :: decode_qs cs
  | '%' :: '3' :: 'D' :: cs => '=' :: decode_qs cs
  | c :: cs => c :: decode_qs cs
  | [] => []

/-- Hexadecimal digit value, as accepted by percent-escapes. -/
def hex_val (c : Char) : Option Nat :=
  if ('0' ≤ c ∧ c ≤ '9') then some (c.toNat - ('0').toNat)
  else if ('a' ≤ c ∧ c ≤ 'f') then some (c.toNat - ('a').toNat + 10)
  else if ('A' ≤ c ∧ c ≤ 'F') then some (c.toNat - ('A').toNat + 10)
  else none

/-- `urllib.parse.unquote_plus` restricted to single-byte escapes (the URLs in
scope are ASCII): '+' becomes a space, a valid `%XX` escape becomes the coded
character, and invalid escapes are left verbatim. -/
def unquote_plus : List Char → List Char
  | '%' :: a :: b :: cs =>
    match hex_val a, hex_val b with
    | some x, some y => Char.ofNat (16 * x + y) :: unquote_plus cs
    | _, _ => '%' :: unquote_plus (a :: b :: cs)
  | c :: cs => (if c = '+' then ' ' else c) :: unquote_plus cs
  | [] => []

/-- Split on every '&' (the separator used by `urllib.parse.parse_qs`). -/
def split_amp : List Char → List (List Char)
  | [] => [[]]
  | '&' :: cs => [] :: split_amp cs
  | c :: cs =>
    match split_amp cs with
    | [] => [[c]]
    | g :: gs => (c :: g) :: gs

/-- Split a field at its first '='; `none` when the field has no '='. -/
def split_eq : List Char → Option (List Char × List Char)
  | [] => none
  | '=' :: cs => some ([], cs)
  | c :: cs =>
    match split_eq cs with
    | none => none
    | some nv => some (c :: nv.1, nv.2)

/-- `urllib.parse.parse_qs` with its default `keep_blank_values=False`: fields
without '=' or with an empty value are dropped, names and values are
percent-decoded, order is preserved. -/
def qs_pairs (qs : List Char) : List (List Char × List Char) :=
  (split_amp qs).filterMap (fun seg =>
    match split_eq seg with
    | none => none
    | some nv =>
      if nv.2.isEmpty then none
      else some (unquote_plus nv.1, unquote_plus nv.2))

/-- `qs_params.get(key, [...])[0]` — the first value recorded for `key`. -/
def qs_first (pairs : List (List Char × List Char)) (key : List Char) :
    Option (List Char) :=
  (pairs.find? (fun p => p.1 == key)).map (fun p => p.2)

/-- Numeric value of a digit string. -/
def nat_of_digits (ds : List Char) : Nat :=
  ds.foldl (fun n c => 10 * n + (c.toNat - ('0').toNat)) 0

/-- Partial model of Python `float()`: an optional sign, then decimal digits
with an optional fractional part (the only forms that occur in Street View
thumbnail query strings); every other string is a conversion error. -/
def py_float (s : List Char) : Option ℚ :=
  let signed : ℚ × List Char :=
    match s with
    | '-' :: r => (-1, r)
    | '+' :: r => (1, r)
    | r => (1, r)
  let ip := signed.2.takeWhile Char.isDigit
  match signed.2.dropWhile Char.isDigit with
  | [] => if ip.isEmpty then none else some (signed.1 * nat_of_digits ip)
  | '.' :: fr =>
    if fr.all Char.isDigit && (!ip.isEmpty || !fr.isEmpty) then
      some (signed.1 *
        ((nat_of_digits ip : ℚ) + (nat_of_digits fr : ℚ) / 10 ^ fr.length))
    else none
  | _ => none

/-- metadata.py lines 76-85: the yaw/pitch block of the thumbnail branch.
`try: yaw = float(yaw_str) if yaw_str else None; pitch = ... except: yaw =
pitch = None` — a conversion error in either string wipes both angles. -/
def thumb_angles (yaw_str pitch_str : List Char) : Option ℚ × Option ℚ :=
  match (if yaw_str.isEmpty then some none else (py_float yaw_str).map some),
      (if pitch_str.isEmpty then some none else (py_float pitch_str).map some) with
  | some y, some p => (y, p)
  | _, _ => (none, none)

/-- metadata.py lines 70-85: the thumbnail branch of `extract_from_maps_url` —
everything it returns is computed from the captured query string alone. -/
def thumb_extract (qs_encoded : List Char) :
    Option (List Char) × Option ℚ × Option ℚ :=
  let qs_params := qs_pairs (decode_qs qs_encoded)
  (qs_first qs_params (("panoid").data),
   thumb_angles ((qs_first qs_params (("yaw").data)).getD (("0").data))
     ((qs_first qs_params (("pitch").data)).getD (("0").data)))

/-- `re.search(r"!3m5!1s([^!]+)", haystack)` (metadata.py line 88): first
position carrying the literal followed by a non-empty run of non-`!`. -/
def token_search (lit : List Char) : List Char → Option (List Char)
  | [] => none
  | c :: cs =>
    if lstarts lit (c :: cs) then
      let cap := take_non_bang ((c :: cs).drop lit.length)
      if cap.isEmpty then token_search lit cs else some cap
    else token_search lit cs

/-- `re.search(r"[?&]panoid=([^&]+)", haystack)` (metadata.py line 93). -/
def panoid_search : List Char → Option (List Char)
  | [] => none
  | c :: cs =>
    if ((c == '?') || (c == '&')) && lstarts (("panoid=").data) cs then
      let cap := (cs.drop 7).takeWhile (fun d => d != '&')
      if cap.isEmpty then panoid_search cs else some cap
    else panoid_search cs

/-- metadata.py lines 56-97, `extract_from_maps_url`, taken over the
`haystack = (path or "") + "?" + (query or "")` string the function builds at
line 65 (the `urlparse` recombination is the input here): thumbnail branch
first, then the `!3m5!1s` token, then a direct `panoid=` parameter. -/
def extract_from_maps_url (haystack : List Char) :
    Option (List Char) × Option ℚ × Option ℚ :=
  match thumb_search haystack with
  | some qs_encoded => thumb_extract qs_encoded
  | none =>
    match token_search (("!3m5!1s").data) haystack with
    | some pid => (some pid, none, none)
    | none =>
      match panoid_search haystack with
      | some pid => (some pid, none, none)
      | none => (none, none, none)

/-- A Google-Maps style haystack whose thumbnail query string lacks `panoid`
while a `!3m5!1s` token carrying an id is present further right. -/
def demo_url : List Char :=
  ("/maps/place/data=!4m7!3m6!5shttps:%2F%2Fstreetviewpixels-pa.googleapis.com%2Fv1%2Fthumbnail%3Fyaw%3D10.5%26pitch%3D0!3m5!1sPANO77!2e0?").data

/-- Claim C10: the thumbnail branch short-circuits the fallbacks — whenever
the thumbnail pattern matches, `extract_from_maps_url` returns exactly what
the captured query string yields (the `!3m5!1s` and `panoid=` fallbacks are
never consulted), and in particular a matched query string without a `panoid`
key gives `pano_id = none` whatever else the haystack contains. -/
theorem thumbnail_short_circuit (haystack qs_encoded : List Char)
    (h : thumb_search haystack = some qs_encoded) :
    extract_from_maps_url haystack = thumb_extract qs_encoded ∧
    (qs_first (qs_pairs (decode_qs qs_encoded)) (("panoid").data) = none →
      (extract_from_maps_url haystack).1 = none) := by
  have h1 : extract_from_maps_url haystack = thumb_extract qs_encoded := by
    unfold extract_from_maps_url
    rw [h]
  refine ⟨h1, fun hnone => ?_⟩
  rw [h1]
  show (qs_first (qs_pairs (decode_qs qs_encoded)) (("panoid").data), _).1 = none
  exact hnone

/-- Concrete instantiation of `thumbnail_short_circuit` at `demo_url`: the
thumbnail query string is `yaw%3D10.5%26pitch%3D0`, the extracted `pano_id`
is `none`, even though the `!3m5!1s` fallback would have yielded "PANO77". -/
theorem thumbnail_short_circuit_instance :
    extract_from_maps_url demo_url = thumb_extract (("yaw%3D10.5%26pitch%3D0").data) ∧
    (extract_from_maps_url demo_url).1 = none ∧
    token_search (("!3m5!1s").data) demo_url = some (("PANO77").data) :=
  ⟨(thumbnail_short_circuit demo_url (("yaw%3D10.5%26pitch%3D0").data) (by decide)).1,
   (thumbnail_short_circuit demo_url (("yaw%3D10.5%26pitch%3D0").data) (by decide)).2
     (by decide),
   by decide⟩
